import Mathlib

/-!
Verification development for the VTI_Demo Telegram bot (`src/main.py`).

The single source file implements a FastAPI webhook handler `receive_update`
that drives a per-chat job-intake conversation: job selection via inline
buttons, a voice note that is transcribed and summarized through OpenAI,
and a confirm/re-record step, plus an admin bypass keyed on a configured
phone number.

We shallowly embed the handler as a pure Lean function over:
- `ChatState` — the per-chat dictionary stored in the Python `user_state`
  map (`jobs`, `selected_job`, `status`, `current_summary`); an absent
  chat entry is modelled as `none : Option ChatState`;
- `RawUpdate` — the shapes of the Telegram update JSON the handler reads
  (callback query, plain message with optional contact / text / voice,
  plus the two failure shapes: a body that is not JSON, and a callback
  query missing its `message`/`chat`/`id` keys, which raise in Python and
  surface as HTTP error responses);
- `VoiceEnv` — the outcomes of the external collaborators used by the
  voice pipeline (Telegram `getFile`, file download, OpenAI configuration,
  transcription, summarization), each success-or-raise step modelled with
  `Except String`;
- `RunResult` — the new chat state, the list of `sendMessage` calls made,
  whether the temporary audio file was created and whether it was deleted,
  and the HTTP outcome of the endpoint.

String primitives used by the Python code (`startswith`, `split("_")`,
`strip`, `lower`, substring `in`) are embedded as structurally recursive
functions on `List Char` so that all definitions reduce in the kernel.
-/

/-- Python `str.startswith`: `startsWithSeq p l` is true iff `l` begins with `p`. -/
def startsWithSeq : List Char → List Char → Bool
  | [], _ => true
  | _ :: _, [] => false
  | p :: ps, c :: cs => p == c && startsWithSeq ps cs

/-- Python `pre in s` restricted to a prefix test: `s.startswith(pre)`. -/
def pyStartsWith (s pre : String) : Bool :=
  startsWithSeq pre.toList s.toList

/-- Python substring containment `pat in l` on character lists. -/
def containsSeq (pat : List Char) : List Char → Bool
  | [] => startsWithSeq pat []
  | c :: cs => startsWithSeq pat (c :: cs) || containsSeq pat cs

/-- Python `needle in hay` for strings. -/
def pyContains (hay needle : String) : Bool :=
  containsSeq needle.toList hay.toList

/-- Python `str.split(sep)` for a one-character separator, on character lists.
`"job_".split("_") = ["job", ""]` and `"".split("_") = [""]`. -/
def splitOnChar (sep : Char) : List Char → List (List Char)
  | [] => [[]]
  | c :: cs =>
    if c == sep then [] :: splitOnChar sep cs
    else
      match splitOnChar sep cs with
      | [] => [[c]]
      | h :: t => (c :: h) :: t

/-- Python `data.split("_")` as used at `src/main.py:90`. -/
def pySplitUnderscore (s : String) : List String :=
  (splitOnChar '_' s.toList).map String.mk

/-- Python `str.strip()`: drop whitespace from both ends. -/
def stripL (l : List Char) : List Char :=
  ((l.dropWhile Char.isWhitespace).reverse.dropWhile Char.isWhitespace).reverse

/-- Python `str.strip()` on strings. -/
def pyStrip (s : String) : String :=
  ⟨stripL s.toList⟩

/-- Python `str.lower()` (ASCII-adequate for the trigger phrases involved). -/
def pyLower (s : String) : String :=
  ⟨s.toList.map Char.toLower⟩

/-- Per-chat state dictionary stored in `user_state[chat_id]` (`src/main.py:16`).
`status` is `Option` because the `job_` branch first creates the dictionary
with only a `"jobs"` key before assigning `status`. -/
structure ChatState where
  jobs : List String
  selected_job : Option String
  status : Option String
  current_summary : Option String
  deriving DecidableEq

/-- Keyboard payloads passed as `reply_markup` to `sendMessage`. -/
inductive Markup where
  | removeKB
  | inlineKB (rows : List (List (String × String)))
  | persistentKB (rows : List (List String)) (resize : Bool) (persist : Bool)
  deriving DecidableEq

/-- One outbound `sendMessage` call (`send_telegram_message`, `src/main.py:58`). -/
structure OutMsg where
  chat_id : Int
  text : String
  reply_markup : Option Markup
  parse_mode : Option String
  deriving DecidableEq

/-- Decidable equality for `Except`, needed to evaluate concrete runs. -/
instance exceptDecEq {ε α : Type} [DecidableEq ε] [DecidableEq α] :
    DecidableEq (Except ε α) := fun x y =>
  match x, y with
  | Except.ok a, Except.ok b =>
    if h : a = b then isTrue (by rw [h]) else isFalse (by intro hc; cases hc; exact h rfl)
  | Except.error e, Except.error f =>
    if h : e = f then isTrue (by rw [h]) else isFalse (by intro hc; cases hc; exact h rfl)
  | Except.ok _, Except.error _ => isFalse (by intro hc; exact Except.noConfusion hc)
  | Except.error _, Except.ok _ => isFalse (by intro hc; exact Except.noConfusion hc)

/-- Outcomes of the external collaborators touched by the voice pipeline
(`src/main.py:141-230`). A `.error e` models the corresponding Python call
raising an exception whose `str` is `e`. -/
structure VoiceEnv where
  file_info_ok : Bool
  file_path : String
  download : Except String Unit
  openai_configured : Bool
  transcription : Except String String
  summarization : Except String String
  deriving DecidableEq

/-- Shapes of the inbound update that the handler distinguishes.
`malformedBody` models a request body that is not JSON (raises in
`request.json()`); `cbNoMessage` models a `callback_query` update missing
the `message`/`chat`/`id` keys read at `src/main.py:85` (raises `KeyError`).
For `msg`, `contact = some pn` models a `"contact"` field whose
`phone_number` is `pn` (itself optional), and `voice = some fid` models a
`"voice"` attachment with that file id. -/
inductive RawUpdate where
  | malformedBody
  | cbNoMessage (data : Option String)
  | cb (chat_id : Int) (data : Option String)
  | msg (chat_id : Int) (contact : Option (Option String)) (text : Option String)
      (voice : Option String)
  | otherUpdate (chat_id : Int)
  deriving DecidableEq

/-- HTTP outcome of the `/webhook` endpoint: the `{"ok": True}` body, or an
unhandled exception escaping the handler (FastAPI then answers with an
error response). -/
inductive HttpResp where
  | ok
  | serverError (e : String)
  deriving DecidableEq

/-- Result of one webhook invocation: the chat state written back, the
outbound messages, the temporary-file lifecycle flags, and the HTTP outcome. -/
structure RunResult where
  state : Option ChatState
  actions : List OutMsg
  tmp_created : Bool
  tmp_deleted : Bool
  resp : HttpResp
  deriving DecidableEq

/-- Fixed demo catalog written into a fresh state (`get_initial_jobs`, `src/main.py:42`). -/
def get_initial_jobs : List String :=
  ["Job 101 | 123 Main St - Pipe Leak",
   "Job 102 | 456 Oak Ave - Water Heater",
   "Job 103 | 789 Pine Rd - Clogged Drain",
   "Job 104 | 321 Elm St - Toilet Repair",
   "Job 105 | 654 Maple Dr - Faucet Replacement"]

/-- One entry of the `jobs_data` list rendered by the view-jobs branch
(`src/main.py:285-291`). -/
structure JobEntry where
  id : String
  jtype : String
  street : String
  time : String
  deriving DecidableEq

/-- The `jobs_data` schedule (`src/main.py:285-291`). -/
def jobs_data : List JobEntry :=
  [⟨"#ST-10021", "Plumbing Leak Detection", "Maple Avenue", "09:00 AM"⟩,
   ⟨"#ST-10022", "Water Heater Inspection", "Oak Street", "11:30 AM"⟩,
   ⟨"#ST-10023", "Routine Maintenance", "Pine Boulevard", "02:00 PM"⟩,
   ⟨"#ST-10024", "Main Line Repair", "Cedar Lane", "04:15 PM"⟩,
   ⟨"#ST-10025", "Emergency Drain Cleaning", "Elm Drive", "06:00 PM"⟩]

/-- Ids of the jobs offered by the generated selection buttons. -/
def jobsDataIds : List String :=
  jobs_data.map JobEntry.id

/-- Admin notice text (`src/main.py:237-241`). -/
def admin_text : String :=
  "🔧 *Admin Flow Initiated*\nI recognize you as the System Admin/Developer.\nAwaiting direct commands or testing prompts. Standard workflows bypassed."

/-- Welcome text for `/start` (`src/main.py:260-263`). -/
def welcome_text : String :=
  "Welcome to the Voice-to-Invoice Bot! 🛠️\nI\x27m here to help you manage your plumbing jobs."

/-- Prompt sent after a job button tap (`src/main.py:100`). -/
def job_select_prompt (job_id : String) : String :=
  "You selected Job **" ++ job_id ++ "**.\n\nPlease record a voice message describing what you have done in the job (e.g. hours worked, job done there)."

/-- Receipt acknowledgement sent before voice processing (`src/main.py:144`). -/
def voice_receipt_text : String :=
  "🎙️ Voice note received! Transcribing and summarizing..."

/-- Failure text when Telegram `getFile` does not return ok (`src/main.py:156`). -/
def file_info_fail_text : String :=
  "Failed to get voice file info from Telegram."

/-- Failure text when the OpenAI client is not configured (`src/main.py:174`). -/
def api_key_missing_text : String :=
  "OpenAI API key missing. Cannot process voice."

/-- Failure text produced by the `except` clause (`src/main.py:226`). -/
def voice_error_text (e : String) : String :=
  "Error processing voice note: " ++ e

/-- Notice for a voice note arriving outside `awaiting_voice` (`src/main.py:228`). -/
def select_job_first_text : String :=
  "Voice note received! But you need to select a job first."

/-- Confirmation acknowledgement (`src/main.py:109`). -/
def confirm_ack_text : String :=
  "✅ Confirmed! Moving to the next step..."

/-- Re-record prompt for the retry button (`src/main.py:117`). -/
def retry_prompt_text : String :=
  "Please record your voice message again."

/-- Draft-summary confirmation text (`src/main.py:206-210`). -/
def confirm_text (summary_bullets : String) : String :=
  "*Job Summary Draft:*\n\n" ++ summary_bullets ++ "\n\nDoes this look correct?"

/-- Heading of the job list (`src/main.py:296`). -/
def jobs_heading_text : String :=
  "Here are the current jobs on the schedule:\n"

/-- Trailing prompt after the job list (`src/main.py:325`). -/
def jobs_followup_text : String :=
  "Would you like to view a specific job\x27s details or generate an invoice for any of these?"

/-- Per-job message body (`src/main.py:302-307`). -/
def job_text (idx : Nat) (j : JobEntry) : String :=
  "*" ++ toString idx ++ ". Job ID: " ++ j.id ++ "*\n   - *Type:* " ++ j.jtype ++ "\n   - *Street:* " ++ j.street ++ "\n   - *Time:* " ++ j.time

/-- Persistent menu keyboard sent with the welcome message (`src/main.py:266-273`). -/
def welcome_keyboard : Markup :=
  Markup.persistentKB [["View Jobs"], ["Finish", "Restart"]] true true

/-- Confirm / re-record inline keyboard (`src/main.py:212-217`). -/
def confirm_keyboard : Markup :=
  Markup.inlineKB [[("✅ Confirm", "confirm_job")], [("🔄 Re-record", "retry_job")]]

/-- Per-job selection button (`src/main.py:309-313`); note the trailing space
in the generated callback data. -/
def job_keyboard (j : JobEntry) : Markup :=
  Markup.inlineKB [[("✅ Choose " ++ j.id, "job_" ++ j.id ++ " ")]]

/-- Trigger phrases for listing jobs (`src/main.py:282`). -/
def view_jobs_triggers : List String :=
  ["view jobs", "show my schedule", "what are the tasks", "job list", "schedule", "jobs"]

/-- Python `any(trigger in text_lower for trigger in view_jobs_triggers)`
(`src/main.py:284`). -/
def triggersViewJobs (text : String) : Bool :=
  view_jobs_triggers.any (fun t => pyContains (pyLower text) t)

/-- Contact-number normalization (`src/main.py:128-133`): take
`message["contact"].get("phone_number")` and prepend `+` when the number is
truthy and lacks one (Python truthiness keeps an empty string unchanged). -/
def contact_number_of (contact : Option (Option String)) : Option String :=
  match contact with
  | none => none
  | some pn =>
    match pn with
    | none => none
    | some p => if p ≠ "" && !(pyStartsWith p "+") then some ("+" ++ p) else some p

/-- Fresh state created in the message branch (`src/main.py:253-257`). -/
def initial_active_state : ChatState :=
  ⟨get_initial_jobs, none, some "active", none⟩

/-- Enumerate with a starting index, modelling Python `enumerate(xs, 1)`. -/
def enumFrom {α : Type} (n : Nat) : List α → List (Nat × α)
  | [] => []
  | a :: as => (n, a) :: enumFrom (n + 1) as

/-- Messages sent by the view-jobs branch (`src/main.py:293-327`): heading,
one message per job with its selection button, then the follow-up prompt. -/
def view_jobs_actions (chat_id : Int) : List OutMsg :=
  ⟨chat_id, jobs_heading_text, none, some "Markdown"⟩ ::
    ((enumFrom 1 jobs_data).map fun p =>
      (⟨chat_id, job_text p.1 p.2, some (job_keyboard p.2), some "Markdown"⟩ : OutMsg)) ++
    [⟨chat_id, jobs_followup_text, none, some "Markdown"⟩]

/-- Stage of a possibly-absent chat record, mirroring the Python read
`user_state.get(chat_id, {}).get("status")`. -/
def statusOf : Option ChatState → Option String
  | none => none
  | some s => s.status

/-- Selected job of a possibly-absent chat record. -/
def selectedOf : Option ChatState → Option String
  | none => none
  | some s => s.selected_job

/-- Draft summary of a possibly-absent chat record. -/
def summaryOf : Option ChatState → Option String
  | none => none
  | some s => s.current_summary

/-- Voice-message branch (`src/main.py:141-230`). The state is read with
`user_state.get(chat_id, {})`; only the `awaiting_voice` status runs the
pipeline, and every failure inside the `try` is converted to a text reply
while the endpoint still acknowledges. The temporary audio file is created
after a successful download and removed (`os.remove`, `src/main.py:182`)
only after a successful transcription. -/
def handle_voice (env : VoiceEnv) (chat_id : Int) (st : Option ChatState) : RunResult :=
  match st with
  | some s =>
    if s.status = some "awaiting_voice" then
      let ack : OutMsg := ⟨chat_id, voice_receipt_text, none, none⟩
      if !env.file_info_ok then
        ⟨some s, [ack, ⟨chat_id, file_info_fail_text, none, none⟩], false, false, HttpResp.ok⟩
      else
        match env.download with
        | Except.error e =>
          ⟨some s, [ack, ⟨chat_id, voice_error_text e, none, none⟩], false, false, HttpResp.ok⟩
        | Except.ok _ =>
          if !env.openai_configured then
            ⟨some s, [ack, ⟨chat_id, api_key_missing_text, none, none⟩], true, false, HttpResp.ok⟩
          else
            match env.transcription with
            | Except.error e =>
              ⟨some s, [ack, ⟨chat_id, voice_error_text e, none, none⟩], true, false, HttpResp.ok⟩
            | Except.ok _ =>
              match env.summarization with
              | Except.error e =>
                ⟨some s, [ack, ⟨chat_id, voice_error_text e, none, none⟩], true, true, HttpResp.ok⟩
              | Except.ok summary_bullets =>
                ⟨some { s with status := some "awaiting_confirmation",
                               current_summary := some summary_bullets },
                 [ack, ⟨chat_id, confirm_text summary_bullets, some confirm_keyboard, some "Markdown"⟩],
                 true, true, HttpResp.ok⟩
    else
      ⟨st, [⟨chat_id, select_job_first_text, none, none⟩], false, false, HttpResp.ok⟩
  | none =>
    ⟨none, [⟨chat_id, select_job_first_text, none, none⟩], false, false, HttpResp.ok⟩

/-- The `/webhook` handler `receive_update` (`src/main.py:75-332`), embedded
for the single chat addressed by the event. `admin` is the configured
`ADMIN_PHONE_NUMBER`, `env` fixes the collaborator outcomes for this
invocation, and `st` is the stored state for the chat (`none` = unseen chat). -/
def receive_update (admin : String) (env : VoiceEnv) (u : RawUpdate)
    (st : Option ChatState) : RunResult :=
  match u with
  | RawUpdate.malformedBody =>
    ⟨st, [], false, false, HttpResp.serverError "request body is not valid JSON"⟩
  | RawUpdate.cbNoMessage _ =>
    ⟨st, [], false, false, HttpResp.serverError "KeyError"⟩
  | RawUpdate.otherUpdate _ =>
    ⟨st, [], false, false, HttpResp.ok⟩
  | RawUpdate.cb chat_id data? =>
    let data := data?.getD ""
    if pyStartsWith data "job_" then
      let job_id := pyStrip ((pySplitUnderscore data).getD 1 "")
      let s0 : ChatState :=
        match st with
        | none => ⟨get_initial_jobs, none, none, none⟩
        | some s => s
      ⟨some { s0 with selected_job := some job_id, status := some "awaiting_voice" },
       [⟨chat_id, job_select_prompt job_id, none, some "Markdown"⟩], false, false, HttpResp.ok⟩
    else if data = "confirm_job" then
      if statusOf st = some "awaiting_confirmation" then
        ⟨st.map (fun s => { s with status := some "confirmed" }),
         [⟨chat_id, confirm_ack_text, none, none⟩], false, false, HttpResp.ok⟩
      else ⟨st, [], false, false, HttpResp.ok⟩
    else if data = "retry_job" then
      if statusOf st = some "awaiting_confirmation" then
        ⟨st.map (fun s => { s with status := some "awaiting_voice" }),
         [⟨chat_id, retry_prompt_text, none, none⟩], false, false, HttpResp.ok⟩
      else ⟨st, [], false, false, HttpResp.ok⟩
    else ⟨st, [], false, false, HttpResp.ok⟩
  | RawUpdate.msg chat_id contact text? voice? =>
    let contact_number := contact_number_of contact
    let text := text?.getD ""
    if voice?.isSome then
      handle_voice env chat_id st
    else if contact_number = some admin ∨ text = admin then
      ⟨st, [⟨chat_id, admin_text, some Markup.removeKB, none⟩], false, false, HttpResp.ok⟩
    else
      let s0 : ChatState :=
        match st with
        | none => initial_active_state
        | some s => s
      if pyStartsWith text "/start" then
        ⟨some s0, [⟨chat_id, welcome_text, some welcome_keyboard, none⟩], false, false, HttpResp.ok⟩
      else if triggersViewJobs text then
        ⟨some s0, view_jobs_actions chat_id, false, false, HttpResp.ok⟩
      else
        ⟨some s0, [], false, false, HttpResp.ok⟩

/-- Default admin identity from the source (`src/main.py:23`). -/
def defaultAdminPhone : String :=
  "+12865471304"

/-- A fully successful collaborator environment, used for concrete runs. -/
def envOK : VoiceEnv :=
  ⟨true, "voice/file_1.oga", Except.ok (), true,
   Except.ok "Worked two hours fixing the leak",
   Except.ok "- 2 hours - leak fixed"⟩

/-- An environment in which everything works except that the OpenAI client
is not configured (`OPENAI_API_KEY` absent, `src/main.py:27`). -/
def envNoKey : VoiceEnv :=
  ⟨true, "voice/file_1.oga", Except.ok (), false,
   Except.ok "Worked two hours fixing the leak",
   Except.ok "- 2 hours - leak fixed"⟩

/-- Chat state mid-flow: a job selected and a voice report awaited. -/
def s_voice : ChatState :=
  ⟨get_initial_jobs, some "#ST-10021", some "awaiting_voice", none⟩

/-- Chat state awaiting confirmation of a stored draft summary. -/
def s_conf : ChatState :=
  ⟨get_initial_jobs, some "#ST-10021", some "awaiting_confirmation", some "- 2 hours - leak fixed"⟩

/-- `Except` success test, used to phrase the temp-file lifecycle. -/
def isOkB {α : Type} : Except String α → Bool
  | Except.ok _ => true
  | Except.error _ => false

/-- Updates whose payload parses as JSON and carries the keys the handler
reads; the two excluded shapes raise inside the Python handler. -/
def wellFormedUpdate : RawUpdate → Bool
  | RawUpdate.malformedBody => false
  | RawUpdate.cbNoMessage _ => false
  | _ => true

/-- Evaluation of the admin-bypass branch (`src/main.py:235-249`): for a
message event with no voice attachment whose identity claim matches the
configured admin number, the handler sends the admin notice with the
keyboard-removal markup and leaves the stored state untouched. -/
theorem admin_branch_eval (admin : String) (env : VoiceEnv) (chat : Int)
    (contact : Option (Option String)) (text? : Option String) (st : Option ChatState)
    (hid : contact_number_of contact = some admin ∨ text?.getD "" = admin) :
    receive_update admin env (RawUpdate.msg chat contact text? none) st =
      ⟨st, [⟨chat, admin_text, some Markup.removeKB, none⟩], false, false, HttpResp.ok⟩ := by
  simp only [receive_update]
  rw [if_neg (by simp), if_pos hid]

/-- C1 counterexample. The claim states that an event whose identity claim
matches the configured admin identity is classified `AdminIdentified`
regardless of any other content of the event, including an attached voice
note. In the code the voice branch (`src/main.py:141`) runs and returns
before the admin check (`src/main.py:235`): this event carries both the
admin contact number and a voice attachment for an unseen chat, yet the
handler emits only the select-a-job-first notice and never the admin
notice, so the admin check does not take priority over voice handling. -/
theorem c1_admin_priority_cex :
    receive_update defaultAdminPhone envOK
      (RawUpdate.msg 7 (some (some defaultAdminPhone)) none (some "f")) none =
    ⟨none, [⟨7, select_job_first_text, none, none⟩], false, false, HttpResp.ok⟩ := by
  decide

/-- C1 amended. For every inbound message event WITHOUT a voice attachment
whose identity claim (normalized contact phone number or message text)
equals the configured admin identity, the handler takes the admin branch
regardless of any other content and of the current stage: it emits the
admin notice with keyboard removal and changes nothing else. Events with a
voice attachment are consumed by the voice branch before the admin check. -/
theorem c1_admin_priority_amended (admin : String) (env : VoiceEnv) (chat : Int)
    (contact : Option (Option String)) (text? : Option String) (st : Option ChatState)
    (hid : contact_number_of contact = some admin ∨ text?.getD "" = admin) :
    receive_update admin env (RawUpdate.msg chat contact text? none) st =
      ⟨st, [⟨chat, admin_text, some Markup.removeKB, none⟩], false, false, HttpResp.ok⟩ :=
  admin_branch_eval admin env chat contact text? st hid

/-- C1 amended, witness: a contact number sent without a leading plus is
normalized and matched against the admin identity. -/
theorem c1_admin_priority_amended_witness :
    (contact_number_of (some (some "12865471304")) = some defaultAdminPhone ∨
      (some "hello").getD "" = defaultAdminPhone) ∧
    receive_update defaultAdminPhone envOK
      (RawUpdate.msg 7 (some (some "12865471304")) (some "hello") none) (some s_conf) =
      ⟨some s_conf, [⟨7, admin_text, some Markup.removeKB, none⟩], false, false, HttpResp.ok⟩ :=
  ⟨Or.inl (by decide),
   c1_admin_priority_amended defaultAdminPhone envOK 7 (some (some "12865471304"))
     (some "hello") (some s_conf) (Or.inl (by decide))⟩

/-- C2 counterexample. The claim states that `ConfirmationChoice(retry)` in
stage `awaiting_confirmation` clears the stored draft summary. The code
(`src/main.py:112-118`) only rewrites `status` and never deletes
`current_summary`: after the retry the stage is `awaiting_voice` but the
draft summary is still the stored text. -/
theorem c2_retry_clears_summary_cex :
    receive_update defaultAdminPhone envOK (RawUpdate.cb 7 (some "retry_job")) (some s_conf) =
      ⟨some { s_conf with status := some "awaiting_voice" },
       [⟨7, retry_prompt_text, none, none⟩], false, false, HttpResp.ok⟩ ∧
    summaryOf (receive_update defaultAdminPhone envOK (RawUpdate.cb 7 (some "retry_job"))
        (some s_conf)).state = some "- 2 hours - leak fixed" := by
  exact ⟨by decide, by decide⟩

/-- C2 amended. In stage `awaiting_confirmation`, the retry button moves the
stage to `awaiting_voice`, leaves the stored draft summary UNCHANGED (it is
not cleared), leaves `selected_job` unchanged, and emits exactly one
record-again prompt. -/
theorem c2_retry_transition_amended (admin : String) (env : VoiceEnv) (chat : Int)
    (s : ChatState) (hst : s.status = some "awaiting_confirmation") :
    receive_update admin env (RawUpdate.cb chat (some "retry_job")) (some s) =
      ⟨some { s with status := some "awaiting_voice" },
       [⟨chat, retry_prompt_text, none, none⟩], false, false, HttpResp.ok⟩ := by
  obtain ⟨jobs, sel, status, summ⟩ := s
  change status = some "awaiting_confirmation" at hst
  subst hst
  rfl

/-- C2 amended, witness at the scenario state of the spec. -/
theorem c2_retry_transition_amended_witness :
    receive_update defaultAdminPhone envOK (RawUpdate.cb 7 (some "retry_job")) (some s_conf) =
      ⟨some { s_conf with status := some "awaiting_voice" },
       [⟨7, retry_prompt_text, none, none⟩], false, false, HttpResp.ok⟩ :=
  c2_retry_transition_amended defaultAdminPhone envOK 7 s_conf rfl

/-- C4 counterexample. The claim states that an `AdminIdentified` event sets
the stage to `AdminMode`. The code (`src/main.py:235-249`) never touches
`user_state` in the admin branch: after the admin event the stored stage is
still `awaiting_confirmation`; no admin stage exists in the store at all. -/
theorem c4_admin_mode_cex :
    receive_update defaultAdminPhone envOK
      (RawUpdate.msg 7 none (some defaultAdminPhone) none) (some s_conf) =
      ⟨some s_conf, [⟨7, admin_text, some Markup.removeKB, none⟩], false, false, HttpResp.ok⟩ ∧
    statusOf (receive_update defaultAdminPhone envOK
        (RawUpdate.msg 7 none (some defaultAdminPhone) none) (some s_conf)).state =
      some "awaiting_confirmation" := by
  exact ⟨by decide, by decide⟩

/-- C4 amended. For every session in any stage with stored `selected_job`
and `current_summary`, an admin-identity message (without a voice
attachment) leaves the ENTIRE session record unchanged — including the
stage, since the code applies the admin bypass per event and stores no
admin stage — and emits exactly one admin-notice action carrying the
keyboard-removal directive. -/
theorem c4_admin_frame_amended (admin : String) (env : VoiceEnv) (chat : Int)
    (contact : Option (Option String)) (text? : Option String) (s : ChatState)
    (hid : contact_number_of contact = some admin ∨ text?.getD "" = admin)
    (_hsel : s.selected_job.isSome = true) (_hsum : s.current_summary.isSome = true) :
    receive_update admin env (RawUpdate.msg chat contact text? none) (some s) =
      ⟨some s, [⟨chat, admin_text, some Markup.removeKB, none⟩], false, false, HttpResp.ok⟩ :=
  admin_branch_eval admin env chat contact text? (some s) hid

/-- C4 amended, witness at the scenario of the spec (stage
`awaiting_confirmation`, identity claim in the message text). -/
theorem c4_admin_frame_amended_witness :
    receive_update defaultAdminPhone envOK
      (RawUpdate.msg 7 none (some defaultAdminPhone) none) (some s_conf) =
      ⟨some s_conf, [⟨7, admin_text, some Markup.removeKB, none⟩], false, false, HttpResp.ok⟩ :=
  c4_admin_frame_amended defaultAdminPhone envOK 7 none (some defaultAdminPhone) s_conf
    (Or.inr rfl) rfl rfl

/-- C5 counterexample. The claim states the temporary audio file is deleted
on every exit path, including a missing language-service credential. With
the OpenAI client unconfigured the code creates the file
(`src/main.py:168-170`) and returns at `src/main.py:175` without ever
reaching `os.remove` (`src/main.py:182`): the file is created and never
deleted. -/
theorem c5_temp_cleanup_cex :
    (receive_update defaultAdminPhone envNoKey (RawUpdate.msg 7 none none (some "f"))
        (some s_voice)).tmp_created = true ∧
    (receive_update defaultAdminPhone envNoKey (RawUpdate.msg 7 none none (some "f"))
        (some s_voice)).tmp_deleted = false := by
  exact ⟨by decide, by decide⟩

/-- C5 amended. In a voice-processing run the temporary file is created
exactly when the file-info fetch and the download succeed, and it is
deleted exactly when additionally the OpenAI client is configured and the
transcription succeeds. In particular it IS deleted when only the
summarization fails, but it is leaked on the missing-credential and
transcription-failure exits. -/
theorem c5_temp_lifecycle_amended (admin : String) (env : VoiceEnv) (chat : Int)
    (s : ChatState) (fid : String) (hst : s.status = some "awaiting_voice") :
    (receive_update admin env (RawUpdate.msg chat none none (some fid)) (some s)).tmp_created =
      (env.file_info_ok && isOkB env.download) ∧
    (receive_update admin env (RawUpdate.msg chat none none (some fid)) (some s)).tmp_deleted =
      (env.file_info_ok && isOkB env.download && env.openai_configured &&
        isOkB env.transcription) := by
  obtain ⟨fio, fp, dl, conf, tr, su⟩ := env
  obtain ⟨jobs, sel, status, summ⟩ := s
  change status = some "awaiting_voice" at hst
  subst hst
  cases fio <;> cases dl <;> cases conf <;> cases tr <;> cases su <;> exact ⟨rfl, rfl⟩

/-- C5 amended, witness on a fully successful run. -/
theorem c5_temp_lifecycle_amended_witness :
    (receive_update defaultAdminPhone envOK (RawUpdate.msg 7 none none (some "f"))
        (some s_voice)).tmp_created = (envOK.file_info_ok && isOkB envOK.download) ∧
    (receive_update defaultAdminPhone envOK (RawUpdate.msg 7 none none (some "f"))
        (some s_voice)).tmp_deleted = (envOK.file_info_ok && isOkB envOK.download &&
          envOK.openai_configured && isOkB envOK.transcription) :=
  c5_temp_lifecycle_amended defaultAdminPhone envOK 7 s_voice "f" rfl

/-- C6 counterexample. The claim states the ingestion endpoint returns an
acknowledgement regardless of the internal processing outcome, in
particular for a malformed payload. In the code `await request.json()`
(`src/main.py:80`) raises on a body that is not JSON, nothing catches the
exception, and the transport receives an error response instead of the
acknowledgement. -/
theorem c6_ack_cex :
    (receive_update defaultAdminPhone envOK RawUpdate.malformedBody none).resp =
      HttpResp.serverError "request body is not valid JSON" ∧
    (receive_update defaultAdminPhone envOK RawUpdate.malformedBody none).resp ≠
      HttpResp.ok := by
  exact ⟨rfl, by decide⟩

/-- C6 amended. For every inbound event whose payload parses as JSON and
carries the keys the handler reads (and whose outbound sends succeed — the
embedding treats the send helper as infallible), the endpoint returns the
acknowledgement; in particular every orchestration failure inside the
voice branch is caught and converted to a user-visible text. Malformed
payloads and missing callback keys raise out of the handler and surface as
error responses. -/
theorem c6_ack_amended (admin : String) (env : VoiceEnv) (u : RawUpdate)
    (st : Option ChatState) (h : wellFormedUpdate u = true) :
    (receive_update admin env u st).resp = HttpResp.ok := by
  cases u with
  | malformedBody => exact absurd h (by decide)
  | cbNoMessage d => exact Bool.noConfusion h
  | otherUpdate c => rfl
  | cb chat d? =>
    simp only [receive_update]
    repeat first
      | rfl
      | split
  | msg chat contact text? voice? =>
    simp only [receive_update, handle_voice]
    repeat first
      | rfl
      | split

/-- C6 amended, witness on a well-formed confirm-button event. -/
theorem c6_ack_amended_witness :
    (receive_update defaultAdminPhone envOK (RawUpdate.cb 7 (some "confirm_job"))
        (some s_conf)).resp = HttpResp.ok :=
  c6_ack_amended defaultAdminPhone envOK (RawUpdate.cb 7 (some "confirm_job")) (some s_conf) rfl

/-- Prefix test against an appended string always succeeds. -/
theorem startsWithSeq_append (p rest : List Char) : startsWithSeq p (p ++ rest) = true := by
  induction p with
  | nil => rfl
  | cons c cs ih => simp [startsWithSeq, ih]

/-- Python `(pre + rest).startswith(pre)` is true. -/
theorem pyStartsWith_append (pre rest : String) : pyStartsWith (pre ++ rest) pre = true := by
  obtain ⟨a⟩ := pre
  obtain ⟨b⟩ := rest
  show startsWithSeq a (a ++ b) = true
  exact startsWithSeq_append a b

/-- User-visible failure notices of the voice pipeline: the file-info
failure text, the missing-credential text, and the `except`-clause text
(`src/main.py:156,174,226`). The receipt acknowledgement and the normal
prompts are not failure notices. -/
def isFailureNotice (m : OutMsg) : Bool :=
  m.text == file_info_fail_text || m.text == api_key_missing_text ||
    pyStartsWith m.text "Error processing voice note: "

/-- Receipt acknowledgement is not a failure notice. -/
theorem isFailureNotice_receipt (c : Int) :
    isFailureNotice ⟨c, voice_receipt_text, none, none⟩ = false := rfl

/-- Messages produced by the `except` clause are failure notices. -/
theorem isFailureNotice_error_msg (c : Int) (e : String) :
    isFailureNotice ⟨c, voice_error_text e, none, none⟩ = true := by
  have h := pyStartsWith_append "Error processing voice note: " e
  simp [isFailureNotice, voice_error_text, h]

/-- C8 (confirmed). In stage `awaiting_voice` with no stored draft, a voice
submission whose orchestration fails at the file-info fetch, the download,
the transcription, or the summarization leaves the session record
unchanged (stage still `awaiting_voice`, draft summary still unset) and
the outbound messages contain exactly one user-visible failure notice
(`src/main.py:141-230`). -/
theorem c8_voice_failure_containment (admin : String) (env : VoiceEnv) (chat : Int)
    (s : ChatState) (fid : String)
    (hst : s.status = some "awaiting_voice") (hsum : s.current_summary = none)
    (hconf : env.openai_configured = true)
    (hfail : (env.file_info_ok && isOkB env.download && isOkB env.transcription &&
      isOkB env.summarization) = false) :
    (receive_update admin env (RawUpdate.msg chat none none (some fid)) (some s)).state =
      some s ∧
    summaryOf (receive_update admin env (RawUpdate.msg chat none none (some fid))
        (some s)).state = none ∧
    ((receive_update admin env (RawUpdate.msg chat none none (some fid))
        (some s)).actions.filter isFailureNotice).length = 1 := by
  obtain ⟨fio, fp, dl, conf, tr, su⟩ := env
  obtain ⟨jobs, sel, status, summ⟩ := s
  change status = some "awaiting_voice" at hst
  subst hst
  change summ = none at hsum
  subst hsum
  change conf = true at hconf
  subst hconf
  cases fio with
  | false => exact ⟨rfl, rfl, rfl⟩
  | true =>
    cases dl with
    | error e =>
      exact ⟨rfl, rfl, by simp [List.filter, isFailureNotice_receipt, isFailureNotice_error_msg]⟩
    | ok uv =>
      cases tr with
      | error e =>
        exact ⟨rfl, rfl, by simp [List.filter, isFailureNotice_receipt, isFailureNotice_error_msg]⟩
      | ok t =>
        cases su with
        | error e =>
          exact ⟨rfl, rfl, by simp [List.filter, isFailureNotice_receipt, isFailureNotice_error_msg]⟩
        | ok b => exact Bool.noConfusion hfail

/-- C8 witness: summarization fails, everything else succeeds. -/
theorem c8_voice_failure_containment_witness :
    (receive_update defaultAdminPhone
        ⟨true, "voice/file_1.oga", Except.ok (), true, Except.ok "t", Except.error "boom"⟩
        (RawUpdate.msg 7 none none (some "f")) (some s_voice)).state = some s_voice ∧
    summaryOf (receive_update defaultAdminPhone
        ⟨true, "voice/file_1.oga", Except.ok (), true, Except.ok "t", Except.error "boom"⟩
        (RawUpdate.msg 7 none none (some "f")) (some s_voice)).state = none ∧
    ((receive_update defaultAdminPhone
        ⟨true, "voice/file_1.oga", Except.ok (), true, Except.ok "t", Except.error "boom"⟩
        (RawUpdate.msg 7 none none (some "f")) (some s_voice)).actions.filter
      isFailureNotice).length = 1 :=
  c8_voice_failure_containment defaultAdminPhone
    ⟨true, "voice/file_1.oga", Except.ok (), true, Except.ok "t", Except.error "boom"⟩
    7 s_voice "f" rfl rfl rfl rfl

/-- C10 (confirmed). A tap on any generated job-selection button is accepted
in EVERY stage (`src/main.py:89-102` has no status guard): it overwrites
`selected_job` with the trimmed token of the tapped job, sets the stage to
`awaiting_voice`, emits exactly one prompt-for-voice action, and does not
clear a previously stored draft summary (the record update keeps
`current_summary` and `jobs`). -/
theorem c10_job_selection_any_stage (admin : String) (env : VoiceEnv) (chat : Int)
    (jid : String) (s : ChatState) (hj : jid ∈ jobsDataIds) :
    receive_update admin env (RawUpdate.cb chat (some ("job_" ++ jid ++ " "))) (some s) =
      ⟨some { s with selected_job := some jid, status := some "awaiting_voice" },
       [⟨chat, job_select_prompt jid, none, some "Markdown"⟩], false, false, HttpResp.ok⟩ := by
  have hlist : jobsDataIds = ["#ST-10021", "#ST-10022", "#ST-10023", "#ST-10024", "#ST-10025"] :=
    rfl
  rw [hlist] at hj
  simp only [List.mem_cons, List.not_mem_nil, or_false] at hj
  rcases hj with rfl | rfl | rfl | rfl | rfl <;> rfl

/-- C10 witness: the first schedule job is accepted while the session is in
stage `awaiting_confirmation` with a stored draft summary. -/
theorem c10_job_selection_any_stage_witness :
    receive_update defaultAdminPhone envOK
      (RawUpdate.cb 7 (some ("job_" ++ "#ST-10021" ++ " "))) (some s_conf) =
      ⟨some { s_conf with selected_job := some "#ST-10021", status := some "awaiting_voice" },
       [⟨7, job_select_prompt "#ST-10021", none, some "Markdown"⟩], false, false, HttpResp.ok⟩ :=
  c10_job_selection_any_stage defaultAdminPhone envOK 7 "#ST-10021" s_conf (by decide)

/-- Stages in which the spec expects a selected job. -/
def jobStage (x : Option String) : Prop :=
  x = some "awaiting_voice" ∨ x = some "awaiting_confirmation" ∨ x = some "confirmed"

/-- Boolean form of `jobStage`. -/
def jobStageB (x : Option String) : Bool :=
  x == some "awaiting_voice" || x == some "awaiting_confirmation" || x == some "confirmed"

/-- The two forms of `jobStage` agree. -/
theorem jobStageB_iff (x : Option String) : jobStageB x = true ↔ jobStage x := by
  simp [jobStageB, jobStage, Bool.or_eq_true, beq_iff_eq, or_assoc]

/-- Stages in which the spec expects a draft summary. -/
def summaryStage (x : Option String) : Prop :=
  x = some "awaiting_confirmation" ∨ x = some "confirmed"

/-- Boolean form of `summaryStage`. -/
def summaryStageB (x : Option String) : Bool :=
  x == some "awaiting_confirmation" || x == some "confirmed"

/-- The two forms of `summaryStage` agree. -/
theorem summaryStageB_iff (x : Option String) : summaryStageB x = true ↔ summaryStage x := by
  simp [summaryStageB, summaryStage, Bool.or_eq_true, beq_iff_eq]

/-- Inductive invariant of the per-chat state: the selected job is present
exactly in the three in-flow stages; the draft summary is present in
`awaiting_confirmation` and `confirmed`, and whenever present the stage is
one of the three in-flow stages (after a retry the summary persists into
`awaiting_voice`, so only this weaker converse holds). -/
def SessionInv (st : Option ChatState) : Prop :=
  (selectedOf st).isSome = jobStageB (statusOf st) ∧
  (summaryStageB (statusOf st) = true → (summaryOf st).isSome = true) ∧
  ((summaryOf st).isSome = true → jobStageB (statusOf st) = true)

/-- The invariant holds for an unseen chat. -/
theorem sessionInv_none : SessionInv none :=
  ⟨rfl, fun hx => Bool.noConfusion hx, fun hx => Bool.noConfusion hx⟩

/-- The voice branch preserves the session invariant. -/
theorem handle_voice_inv (env : VoiceEnv) (chat : Int) (st : Option ChatState)
    (h : SessionInv st) : SessionInv (handle_voice env chat st).state := by
  obtain ⟨h1, h2, h3⟩ := h
  cases st with
  | none => exact ⟨h1, h2, h3⟩
  | some s =>
    simp only [handle_voice]
    split
    next hs =>
      have h1s : s.selected_job.isSome = true := by
        have hh := h1
        simp only [selectedOf, statusOf] at hh
        rw [hs] at hh
        exact hh
      obtain ⟨fio, fp, dl, conf, tr, su⟩ := env
      cases fio <;> cases dl <;> cases conf <;> cases tr <;> cases su <;>
        first
          | exact ⟨h1, h2, h3⟩
          | exact ⟨h1s, fun _ => rfl, fun _ => rfl⟩
    next hs => exact ⟨h1, h2, h3⟩

/-- Every webhook invocation preserves the session invariant. -/
theorem sessionInv_step (admin : String) (env : VoiceEnv) (u : RawUpdate)
    (st : Option ChatState) (h : SessionInv st) :
    SessionInv (receive_update admin env u st).state := by
  obtain ⟨h1, h2, h3⟩ := h
  cases u with
  | malformedBody => exact ⟨h1, h2, h3⟩
  | cbNoMessage d => exact ⟨h1, h2, h3⟩
  | otherUpdate c => exact ⟨h1, h2, h3⟩
  | cb chat d? =>
    simp only [receive_update]
    split
    · cases st with
      | none => exact ⟨rfl, fun hx => Bool.noConfusion hx, fun _ => rfl⟩
      | some s => exact ⟨rfl, fun hx => Bool.noConfusion hx, fun _ => rfl⟩
    · split
      · split
        next hs =>
          cases st with
          | none => exact Option.noConfusion hs
          | some s =>
            simp only [statusOf] at hs
            have h1s : s.selected_job.isSome = true := by
              have hh := h1
              simp only [selectedOf, statusOf] at hh
              rw [hs] at hh
              exact hh
            have h2s : s.current_summary.isSome = true := by
              have hh := h2
              simp only [summaryOf, statusOf] at hh
              exact hh (by rw [hs]; decide)
            exact ⟨h1s, fun _ => h2s, fun _ => rfl⟩
        next hs => exact ⟨h1, h2, h3⟩
      · split
        · split
          next hs =>
            cases st with
            | none => exact Option.noConfusion hs
            | some s =>
              simp only [statusOf] at hs
              have h1s : s.selected_job.isSome = true := by
                have hh := h1
                simp only [selectedOf, statusOf] at hh
                rw [hs] at hh
                exact hh
              exact ⟨h1s, fun hx => Bool.noConfusion hx, fun _ => rfl⟩
          next hs => exact ⟨h1, h2, h3⟩
        · exact ⟨h1, h2, h3⟩
  | msg chat contact text? voice? =>
    simp only [receive_update]
    split
    · exact handle_voice_inv env chat st ⟨h1, h2, h3⟩
    · split
      · exact ⟨h1, h2, h3⟩
      · split
        · cases st with
          | none => exact ⟨rfl, fun hx => Bool.noConfusion hx, fun hx => Bool.noConfusion hx⟩
          | some s => exact ⟨h1, h2, h3⟩
        · split
          · cases st with
            | none => exact ⟨rfl, fun hx => Bool.noConfusion hx, fun hx => Bool.noConfusion hx⟩
            | some s => exact ⟨h1, h2, h3⟩
          · cases st with
            | none => exact ⟨rfl, fun hx => Bool.noConfusion hx, fun hx => Bool.noConfusion hx⟩
            | some s => exact ⟨h1, h2, h3⟩

/-- States of one chat reachable from a fresh (unseen) chat by any sequence
of webhook events under a fixed admin configuration; the collaborator
outcomes may differ per event. -/
inductive Reachable (admin : String) : Option ChatState → Prop where
  | init : Reachable admin none
  | step (env : VoiceEnv) (u : RawUpdate) (st : Option ChatState) :
      Reachable admin st → Reachable admin (receive_update admin env u st).state

/-- Every reachable chat state satisfies the session invariant. -/
theorem reachable_sessionInv (admin : String) (st : Option ChatState)
    (h : Reachable admin st) : SessionInv st := by
  induction h with
  | init => exact sessionInv_none
  | step env u st' _ ih => exact sessionInv_step admin env u st' ih

/-- C9 (confirmed). For every chat state reachable from a fresh session by
any event sequence, `selected_job` is set if and only if the stage is
`awaiting_voice`, `awaiting_confirmation`, or `confirmed`; since
`Reachable` is closed under `receive_update`, the invariant holds after
every transition. -/
theorem c9_selected_job_invariant (admin : String) (st : Option ChatState)
    (h : Reachable admin st) :
    (selectedOf st).isSome = true ↔ jobStage (statusOf st) := by
  have hi := reachable_sessionInv admin st h
  rw [hi.1]
  exact jobStageB_iff (statusOf st)

/-- C9 witness: the state reached after one job-selection tap. -/
theorem c9_selected_job_invariant_witness :
    (selectedOf (receive_update defaultAdminPhone envOK
        (RawUpdate.cb 7 (some "job_#ST-10021 ")) none).state).isSome = true ↔
      jobStage (statusOf (receive_update defaultAdminPhone envOK
        (RawUpdate.cb 7 (some "job_#ST-10021 ")) none).state) :=
  c9_selected_job_invariant defaultAdminPhone _
    (Reachable.step envOK (RawUpdate.cb 7 (some "job_#ST-10021 ")) none Reachable.init)

/-- State reached by: select job `#ST-10021`, submit a voice note that is
transcribed and summarized successfully, then tap the re-record button. -/
def c3_state : Option ChatState :=
  (receive_update defaultAdminPhone envOK (RawUpdate.cb 7 (some "retry_job"))
    ((receive_update defaultAdminPhone envOK (RawUpdate.msg 7 none none (some "f"))
      ((receive_update defaultAdminPhone envOK (RawUpdate.cb 7 (some "job_#ST-10021 "))
        none).state)).state)).state

/-- C3 counterexample. The claim states that for every reachable session the
draft summary is set iff the stage is `awaiting_confirmation` or
`confirmed`. The state reached by job selection, a successful voice
summary, then the re-record button is in stage `awaiting_voice` and still
holds the draft summary, because the retry branch (`src/main.py:112-118`)
never clears `current_summary`. -/
theorem c3_draft_iff_cex :
    Reachable defaultAdminPhone c3_state ∧
    statusOf c3_state = some "awaiting_voice" ∧
    (summaryOf c3_state).isSome = true := by
  refine ⟨?_, by decide, by decide⟩
  exact Reachable.step envOK (RawUpdate.cb 7 (some "retry_job")) _
    (Reachable.step envOK (RawUpdate.msg 7 none none (some "f")) _
      (Reachable.step envOK (RawUpdate.cb 7 (some "job_#ST-10021 ")) none Reachable.init))

/-- C3 amended. For every reachable session: whenever the stage is
`awaiting_confirmation` or `confirmed` the draft summary is set, and
whenever the draft summary is set the stage is `awaiting_voice`,
`awaiting_confirmation`, or `confirmed` (after a retry, or a job re-tap
mid-flow, the summary persists into `awaiting_voice`, so the reverse
implication only reaches this larger stage set). -/
theorem c3_draft_invariant_amended (admin : String) (st : Option ChatState)
    (h : Reachable admin st) :
    (summaryStage (statusOf st) → (summaryOf st).isSome = true) ∧
    ((summaryOf st).isSome = true → jobStage (statusOf st)) := by
  have hi := reachable_sessionInv admin st h
  constructor
  · intro hx
    exact hi.2.1 ((summaryStageB_iff (statusOf st)).mpr hx)
  · intro hx
    exact (jobStageB_iff (statusOf st)).mp (hi.2.2 hx)

/-- C3 amended, witness at the retry-reached state used by the counterexample. -/
theorem c3_draft_invariant_amended_witness :
    (summaryStage (statusOf c3_state) → (summaryOf c3_state).isSome = true) ∧
    ((summaryOf c3_state).isSome = true → jobStage (statusOf c3_state)) :=
  c3_draft_invariant_amended defaultAdminPhone c3_state
    (Reachable.step envOK (RawUpdate.cb 7 (some "retry_job")) _
      (Reachable.step envOK (RawUpdate.msg 7 none none (some "f")) _
        (Reachable.step envOK (RawUpdate.cb 7 (some "job_#ST-10021 ")) none Reachable.init)))

/-- C7 (code bug). The spec models a Restart trigger forcing the stage to
Idle and clearing `selected_job`/`current_summary`, and the code itself
advertises a "Restart" button on its persistent keyboard
(`src/main.py:269`); but no branch of the handler processes the text
"Restart": it falls through the trigger checks into the silent `pass`
(`src/main.py:330`), leaving the session completely unchanged and sending
nothing. -/
theorem c7_restart_noop :
    receive_update defaultAdminPhone envOK (RawUpdate.msg 7 none (some "Restart") none)
      (some s_voice) =
    ⟨some s_voice, [], false, false, HttpResp.ok⟩ := by
  decide
